import Mathlib

/-!
Shallow embedding of the todo-application core from
`src/src/app/todo-app/todo-app.ts` (class `TodoApp`, class `TodoItemModel`),
together with a model of the JavaScript primitives it relies on
(`new Date()`, `JSON.stringify`/`JSON.parse`, `localStorage`, Angular string
signals).  All definitions are translated from the TypeScript source; line
numbers in the comments refer to `todo-app.ts`.
-/

/-- A reading of the JavaScript clock (`new Date()`), recording the pieces the
component consumes: `getTime()` (milliseconds since the epoch), `getDay()`
(day of week, 0–6 in real JS) and `getMilliseconds()` (0–999 in real JS).
The bounds are not needed by any theorem, so the fields are plain naturals. -/
structure JsDate where
  time : Nat
  day : Nat
  ms : Nat
deriving DecidableEq

/-- `class TodoItemModel` (todo-app.ts lines 184–196).  `createdDate` is a
JavaScript `Date`; the embedding represents a `Date` by its millisecond
timestamp (`getTime()`), a natural number for the epoch times the store
produces. -/
structure TodoItemModel where
  todoItemId : Nat
  todoItem : String
  createdDate : Nat
  status : String
deriving DecidableEq

/-- The `TodoItemModel` constructor (lines 190–195): id 0, empty text, current
date, status `"Pending"`.  `new TodoItemModel()` reads the clock once, passed
here as `now`. -/
def TodoItemModel.new (now : JsDate) : TodoItemModel :=
  { todoItemId := 0, todoItem := "", createdDate := now.time, status := "Pending" }

/-- JavaScript `String.prototype.trim`: drop leading and trailing whitespace. -/
def jsTrim (s : String) : String :=
  String.mk (((s.data.dropWhile Char.isWhitespace).reverse.dropWhile Char.isWhitespace).reverse)

/-- A JSON document, as the parse tree `JSON.parse` produces / the tree
`JSON.stringify` serializes.  Numbers are naturals here: the only numbers the
store writes are task ids. -/
inductive Json where
  | null : Json
  | bool : Bool → Json
  | num : Nat → Json
  | str : String → Json
  | arr : List Json → Json
  | obj : List (String × Json) → Json

/-- A string held in `localStorage`: either the text of a well-formed JSON
document (represented by its parse tree, which is in bijection with the
canonical text) or text that is not valid JSON. -/
inductive JsonText where
  | wellFormed : Json → JsonText
  | malformed : String → JsonText

/-- An exception thrown by the JavaScript runtime. -/
inductive JsError where
  | parseError : String → JsError
  | typeError : String → JsError
deriving DecidableEq

/-- `JSON.parse`: succeeds exactly on well-formed JSON text, returning its
parse tree, and throws a SyntaxError on anything else. -/
def jsonParse : JsonText → Except JsError Json
  | JsonText.wellFormed j => Except.ok j
  | JsonText.malformed s => Except.error (JsError.parseError s)

/-- An Angular `WritableSignal<string>` (`signal('...')`, lines 18–20): a
function object holding a current string value.  Calling the signal returns
the value; the object itself is a function, is never strictly equal (`===`)
to any string, and has no string methods such as `trim`. -/
structure StringSignal where
  value : String
deriving DecidableEq

/-- JavaScript strict inequality `sig !== str` between a signal (a function
object) and a string: the operands have different types, so the comparison is
decided without looking at the signal's value — always unequal. -/
def signalNeqString (_sig : StringSignal) (_s : String) : Bool := true

/-- JavaScript strict equality `str === sig` between a string and a signal
(a function object): always false, regardless of the signal's value. -/
def stringEqSignal (_s : String) (_sig : StringSignal) : Bool := false

/- ### Decimal digit strings (model of the serialized `Date`) -/

/-- Little-endian base-10 digits of `n`, with explicit fuel so the recursion
is structural; `natDigits` below instantiates the fuel with `n` itself. -/
def natDigitsAux : Nat → Nat → List Nat
  | 0, _ => []
  | fuel + 1, n => if n = 0 then [] else (n % 10) :: natDigitsAux fuel (n / 10)

/-- Little-endian base-10 digits of `n`. -/
def natDigits (n : Nat) : List Nat := natDigitsAux n n

/-- Value of a little-endian base-10 digit list. -/
def ofDigitsList : List Nat → Nat
  | [] => 0
  | d :: ds => d + 10 * ofDigitsList ds

/-- The character for a decimal digit. -/
def digitToChar (d : Nat) : Char := Char.ofNat (48 + d)

/-- The decimal digit for a character. -/
def charToDigit (c : Char) : Nat := c.toNat - 48

/-- Serialization of a `Date` by `JSON.stringify` (via `Date.prototype.toJSON`):
a round-trippable timestamp string.  The embedding uses the decimal rendering
of the millisecond timestamp as the canonical such string (the spec allows
"ISO-8601 or equivalent round-trippable timestamp string"; both are in
bijection with the timestamp value). -/
def dateToJSONString (t : Nat) : String :=
  String.mk (((natDigits t).map digitToChar).reverse)

/-- `new Date(s)` on a serialized date string: recover the timestamp. -/
def newDateOfString (s : String) : Nat :=
  ofDigitsList ((s.data.map charToDigit).reverse)

/- ### The component state and its operations -/

/-- The fields of the `TodoApp` component (lines 11–22) together with the
`localStorage` slot under `localKeyName` that the component reads and writes:
the store's whole observable state.  `searchText`, `filterStatus` and
`sortOrder` are Angular signals (lines 18–20). -/
structure TodoApp where
  newTask : TodoItemModel
  todoList : List TodoItemModel
  searchText : StringSignal
  filterStatus : StringSignal
  sortOrder : StringSignal
  localStore : Option JsonText

/-- The component's fields as initialized at construction (lines 12–20), with
`store` the pre-existing contents of `localStorage`.  `new TodoItemModel()`
reads the clock, modelled by `d0`. -/
def initialState (d0 : JsDate) (store : Option JsonText) : TodoApp :=
  { newTask := TodoItemModel.new d0
    todoList := []
    searchText := { value := "" }
    filterStatus := { value := "All" }
    sortOrder := { value := "newest" }
    localStore := store }

/-- `JSON.stringify` of one task (the four declared fields, the `Date`
serialized as a string). -/
def taskToJson (t : TodoItemModel) : Json :=
  Json.obj [("todoItemId", Json.num t.todoItemId),
            ("todoItem", Json.str t.todoItem),
            ("createdDate", Json.str (dateToJSONString t.createdDate)),
            ("status", Json.str t.status)]

/-- `JSON.stringify(this.todoList())` (line 171): the persisted blob. -/
def stringifyTasks (ts : List TodoItemModel) : JsonText :=
  JsonText.wellFormed (Json.arr (ts.map taskToJson))

/-- `saveToLocalStorage` (lines 170–172). -/
def saveToLocalStorage (s : TodoApp) : TodoApp :=
  { s with localStore := some (stringifyTasks s.todoList) }

/-- A task record as revived by `JSON.parse` before re-hydration: the
`createdDate` field is still a string (lines 29–30: "Convert date strings
back to date objects"). -/
structure RawTask where
  todoItemId : Nat
  todoItem : String
  createdDate : String
  status : String
deriving DecidableEq

/-- Serialized form of a raw task record (what a persisted task looks like
inside the parsed blob). -/
def rawTaskToJson (r : RawTask) : Json :=
  Json.obj [("todoItemId", Json.num r.todoItemId),
            ("todoItem", Json.str r.todoItem),
            ("createdDate", Json.str r.createdDate),
            ("status", Json.str r.status)]

/-- Read one parsed JSON value as a task record of the persisted shape. -/
def jsonToRawTask : Json → Option RawTask
  | Json.obj fields =>
    match fields.lookup "todoItemId", fields.lookup "todoItem",
          fields.lookup "createdDate", fields.lookup "status" with
    | some (Json.num i), some (Json.str txt), some (Json.str cd), some (Json.str st) =>
      some { todoItemId := i, todoItem := txt, createdDate := cd, status := st }
    | _, _, _, _ => none
  | _ => none

/-- The raw (pre-hydration) form of a stored task: every field kept verbatim,
the `createdDate` as its serialized string. -/
def rawOfTask (t : TodoItemModel) : RawTask :=
  { todoItemId := t.todoItemId, todoItem := t.todoItem,
    createdDate := dateToJSONString t.createdDate, status := t.status }

/-- Read a parsed JSON array as a list of task records of the persisted
shape; fails if any entry is not of that shape. -/
def decodeRawTasks : List Json → Option (List RawTask)
  | [] => some []
  | j :: rest =>
    match jsonToRawTask j, decodeRawTasks rest with
    | some r, some rs => some (r :: rs)
    | _, _ => none

/-- Lines 30–33: `{ ...task, createdDate: new Date(task.createdDate) }` —
keep every field, replacing the serialized date string by a `Date`. -/
def hydrateTask (r : RawTask) : TodoItemModel :=
  { todoItemId := r.todoItemId, todoItem := r.todoItem,
    createdDate := newDateOfString r.createdDate, status := r.status }

/-- `ngOnInit` (lines 24–36).  `localStorage.getItem` yields the stored text
or null; if non-null the code runs `JSON.parse` (which throws on malformed
text — there is no try/catch, so the exception escapes `ngOnInit`) and then
maps the date re-hydration over the parsed array.  A parsed value that is not
an array has no `.map` method (TypeError); an array entry not of the persisted
record shape cannot be re-hydrated and is likewise modelled as a TypeError. -/
def ngOnInit (s : TodoApp) : Except JsError TodoApp :=
  match s.localStore with
  | none => Except.ok s
  | some text =>
    match jsonParse text with
    | Except.error e => Except.error e
    | Except.ok parseData =>
      match parseData with
      | Json.arr items =>
        match decodeRawTasks items with
        | some raws => Except.ok { s with todoList := raws.map hydrateTask }
        | none => Except.error (JsError.typeError "task record of unexpected shape")
      | _ => Except.error (JsError.typeError "parseData.map is not a function")

/-- `generateId` (lines 163–168): sets the draft's id to
`todoList().length + 1 + newDate.getDay() + newDate.getMilliseconds()` and its
`createdDate` to that same `new Date()`. -/
def generateId (now : JsDate) (s : TodoApp) : TodoApp :=
  { s with newTask := { s.newTask with
      todoItemId := s.todoList.length + 1 + now.day + now.ms
      createdDate := now.time } }

/-- `addTask` (lines 38–57): no-op when the draft text trims to empty
(`!this.newTask.todoItem.trim()`); otherwise generate id and date, append a
structural copy of the draft, persist, reset the draft.  `now` models the
`new Date()` read inside `generateId`, `nowReset` the one inside the
`new TodoItemModel()` reset. -/
def addTask (now nowReset : JsDate) (s : TodoApp) : TodoApp :=
  if jsTrim s.newTask.todoItem = "" then s
  else
    let s1 := generateId now s
    let s2 := { s1 with todoList := s1.todoList ++ [s1.newTask] }
    let s3 := saveToLocalStorage s2
    { s3 with newTask := TodoItemModel.new nowReset }

/-- `editTask` (lines 61–70): the draft becomes a structural copy of `data`
(the copy re-wraps the `Date`, which is value-identity in the embedding);
`tasks` is untouched.  The scroll request is UI-only. -/
def editTask (data : TodoItemModel) (s : TodoApp) : TodoApp :=
  { s with newTask := data }

/-- `updateTask` (lines 73–91): no-op when the draft text trims to empty;
otherwise every list entry whose id equals the draft's id is replaced by a
structural copy of the draft, the list is persisted, the draft reset. -/
def updateTask (nowReset : JsDate) (s : TodoApp) : TodoApp :=
  if jsTrim s.newTask.todoItem = "" then s
  else
    let s1 := { s with todoList := s.todoList.map (fun item =>
        if item.todoItemId = s.newTask.todoItemId then s.newTask else item) }
    let s2 := saveToLocalStorage s1
    { s2 with newTask := TodoItemModel.new nowReset }

/-- `onCancelEdit` (lines 93–95). -/
def onCancelEdit (nowReset : JsDate) (s : TodoApp) : TodoApp :=
  { s with newTask := TodoItemModel.new nowReset }

/-- `deleteTask` (lines 97–111); `confirmed` is the boolean the external
`confirm` dialog returned.  On yes: keep entries whose id differs, persist,
and reset the draft if it was editing the deleted id. -/
def deleteTask (confirmed : Bool) (todoItemId : Nat) (nowReset : JsDate) (s : TodoApp) : TodoApp :=
  if confirmed then
    let s1 := { s with todoList := s.todoList.filter (fun item => item.todoItemId != todoItemId) }
    let s2 := saveToLocalStorage s1
    if s2.newTask.todoItemId = todoItemId then { s2 with newTask := TodoItemModel.new nowReset }
    else s2
  else s

/-- `toggleComplete` (lines 114–127): every entry whose id equals the given
task's id gets its status flipped (`Completed` → `Pending`, anything else →
`Completed`) via a full-record copy; then persist. -/
def toggleComplete (task : TodoItemModel) (s : TodoApp) : TodoApp :=
  let s1 := { s with todoList := s.todoList.map (fun item =>
      if item.todoItemId = task.todoItemId then
        { item with status := if item.status = "Completed" then "Pending" else "Completed" }
      else item) }
  saveToLocalStorage s1

/-- `clearCompletedTasks` (lines 129–136). -/
def clearCompletedTasks (confirmed : Bool) (s : TodoApp) : TodoApp :=
  if confirmed then
    saveToLocalStorage { s with todoList := s.todoList.filter (fun item => item.status != "Completed") }
  else s

/-- `getFilteredTasks` (lines 138–160), embedded with the JavaScript semantics
of the source as written: `filterStatus`, `searchText` and `sortOrder` are
signals (lines 18–20) but are read here without being called.
Line 142 `this.filterStatus !== 'All'` compares the signal object to a string
(always true), so the status filter always runs; line 143
`item.status === this.filterStatus` compares a string to the signal object
(always false), so it keeps nothing; line 146 `this.searchText.trim()` calls
a method the signal function does not have, throwing a TypeError before the
search filter and the sort (lines 146–158) can run. -/
def getFilteredTasks (s : TodoApp) : Except JsError (List TodoItemModel) :=
  let tasks0 := s.todoList
  let _tasks1 :=
    if signalNeqString s.filterStatus "All" then
      tasks0.filter (fun item => stringEqSignal item.status s.filterStatus)
    else tasks0
  Except.error (JsError.typeError "this.searchText.trim is not a function")

/-- `getCompletedCount` (lines 174–176). -/
def getCompletedCount (s : TodoApp) : Nat :=
  (s.todoList.filter (fun item => item.status == "Completed")).length

/-- `getPendingCount` (lines 178–180). -/
def getPendingCount (s : TodoApp) : Nat :=
  (s.todoList.filter (fun item => item.status == "Pending")).length

/- ### The template's writes to the draft, and reachable states -/

/-- The template's two-way binding writing the draft's text field. -/
def setDraftText (txt : String) (s : TodoApp) : TodoApp :=
  { s with newTask := { s.newTask with todoItem := txt } }

/-- The template's two-way binding writing the draft's status field. -/
def setDraftStatus (st : String) (s : TodoApp) : TodoApp :=
  { s with newTask := { s.newTask with status := st } }

/-- States reachable in one session: from a freshly constructed component,
via the component's mutation operations and the template's draft-field
writes (the template invokes `editTask` only on tasks of the displayed
list). -/
inductive Reachable : TodoApp → Prop where
  | init (d0 : JsDate) (store : Option JsonText) : Reachable (initialState d0 store)
  | stepAdd {s : TodoApp} (n1 n2 : JsDate) : Reachable s → Reachable (addTask n1 n2 s)
  | stepEdit {s : TodoApp} {data : TodoItemModel} :
      Reachable s → data ∈ s.todoList → Reachable (editTask data s)
  | stepUpdate {s : TodoApp} (nr : JsDate) : Reachable s → Reachable (updateTask nr s)
  | stepCancel {s : TodoApp} (nr : JsDate) : Reachable s → Reachable (onCancelEdit nr s)
  | stepDelete {s : TodoApp} (c : Bool) (i : Nat) (nr : JsDate) :
      Reachable s → Reachable (deleteTask c i nr s)
  | stepToggle {s : TodoApp} (task : TodoItemModel) :
      Reachable s → Reachable (toggleComplete task s)
  | stepClear {s : TodoApp} (c : Bool) : Reachable s → Reachable (clearCompletedTasks c s)
  | stepSetText {s : TodoApp} (txt : String) : Reachable s → Reachable (setDraftText txt s)
  | stepSetStatus {s : TodoApp} (st : String) : Reachable s → Reachable (setDraftStatus st s)

/- ### Repeated adds (for the id-uniqueness claim) -/

/-- One user interaction per add: type the draft text, then press add.
`runAdds` performs a sequence of such interactions. -/
def runAdds : TodoApp → List (String × JsDate × JsDate) → TodoApp
  | s, [] => s
  | s, (txt, n1, n2) :: rest => runAdds (addTask n1 n2 (setDraftText txt s)) rest

/-- The day-of-week plus millisecond component that one add step's
`generateId` clock contributes to the generated id. -/
def stepDms (x : String × JsDate × JsDate) : Nat := x.2.1.day + x.2.1.ms

/-- The ids `generateId` hands out along a run of adds starting from a list of
length `c`: the k-th is `(c + k) + 1 + day + ms` of the k-th generate-clock. -/
def genIds : Nat → List (String × JsDate × JsDate) → List Nat
  | _, [] => []
  | c, (_, n1, _) :: rest => (c + 1 + n1.day + n1.ms) :: genIds (c + 1) rest

/-- Two adds whose clocks make `generateId` collide: the first call sees
count 0 and day+ms = 1, the second count 1 and day+ms = 0, so both produce
id 2. -/
def collisionSteps : List (String × JsDate × JsDate) :=
  [("a", { time := 5, day := 0, ms := 1 }, { time := 6, day := 0, ms := 0 }),
   ("b", { time := 7, day := 0, ms := 0 }, { time := 8, day := 0, ms := 0 })]

/-- Two adds whose generate-clocks have nondecreasing day+ms components, so
the generated ids are distinct. -/
def monotoneSteps : List (String × JsDate × JsDate) :=
  [("a", { time := 5, day := 0, ms := 1 }, { time := 6, day := 0, ms := 0 }),
   ("b", { time := 7, day := 0, ms := 3 }, { time := 8, day := 0, ms := 0 })]

/-- The spec's filter/search example state: tasks ("buy milk", Pending),
("buy bread", Completed), ("call bank", Pending); the filter signal holds
"Pending" and the search signal holds "buy". -/
def exampleC1 : TodoApp :=
  { newTask := TodoItemModel.new { time := 0, day := 0, ms := 0 }
    todoList := [{ todoItemId := 1, todoItem := "buy milk", createdDate := 100, status := "Pending" },
                 { todoItemId := 2, todoItem := "buy bread", createdDate := 200, status := "Completed" },
                 { todoItemId := 3, todoItem := "call bank", createdDate := 300, status := "Pending" }]
    searchText := { value := "buy" }
    filterStatus := { value := "Pending" }
    sortOrder := { value := "newest" }
    localStore := none }

/-- The spec's sort example state: three tasks with createdDate 100 < 200 < 300,
the sort signal holding "newest", no status filter, no search text. -/
def exampleC2 : TodoApp :=
  { newTask := TodoItemModel.new { time := 0, day := 0, ms := 0 }
    todoList := [{ todoItemId := 1, todoItem := "t1", createdDate := 100, status := "Pending" },
                 { todoItemId := 2, todoItem := "t2", createdDate := 200, status := "Pending" },
                 { todoItemId := 3, todoItem := "t3", createdDate := 300, status := "Pending" }]
    searchText := { value := "" }
    filterStatus := { value := "All" }
    sortOrder := { value := "newest" }
    localStore := none }

/-- A state whose draft text is whitespace only. -/
def blankDraftState : TodoApp :=
  { newTask := { todoItemId := 0, todoItem := "   ", createdDate := 7, status := "Pending" }
    todoList := [{ todoItemId := 4, todoItem := "keep", createdDate := 50, status := "Pending" }]
    searchText := { value := "" }
    filterStatus := { value := "All" }
    sortOrder := { value := "newest" }
    localStore := none }

/-- A single Pending task, and a state holding exactly that task. -/
def wToggleTask : TodoItemModel :=
  { todoItemId := 1, todoItem := "a", createdDate := 5, status := "Pending" }

/-- State holding exactly `wToggleTask`. -/
def wToggleState : TodoApp :=
  { newTask := TodoItemModel.new { time := 0, day := 0, ms := 0 }
    todoList := [wToggleTask]
    searchText := { value := "" }
    filterStatus := { value := "All" }
    sortOrder := { value := "newest" }
    localStore := none }

/-- Task A of the spec's update example. -/
def wTaskA : TodoItemModel :=
  { todoItemId := 1, todoItem := "alpha", createdDate := 100, status := "Pending" }

/-- Task B of the spec's update example. -/
def wTaskB : TodoItemModel :=
  { todoItemId := 2, todoItem := "beta", createdDate := 200, status := "Pending" }

/-- State holding [A(id=1), B(id=2)]. -/
def wStateAB : TodoApp :=
  { newTask := TodoItemModel.new { time := 0, day := 0, ms := 0 }
    todoList := [wTaskA, wTaskB]
    searchText := { value := "" }
    filterStatus := { value := "All" }
    sortOrder := { value := "newest" }
    localStore := none }

/-- A reachable add-mode state with a non-empty draft text. -/
def wC10State : TodoApp :=
  setDraftText "x" (initialState { time := 0, day := 0, ms := 0 } none)

/-- A raw persisted task record. -/
def wRaw : RawTask :=
  { todoItemId := 1, todoItem := "milk", createdDate := "123", status := "Pending" }

/-- A fresh component over a storage holding exactly `wRaw`. -/
def wC4State : TodoApp :=
  initialState { time := 0, day := 0, ms := 0 }
    (some (JsonText.wellFormed (Json.arr [rawTaskToJson wRaw])))

/-- A one-task list the store could produce. -/
def wTs : List TodoItemModel :=
  [{ todoItemId := 1, todoItem := "milk", createdDate := 123, status := "Pending" }]

/-- A fresh component over a storage holding the serialization of `wTs`. -/
def wC9State : TodoApp :=
  initialState { time := 0, day := 0, ms := 0 } (some (stringifyTasks wTs))

/- ### Generic list helpers -/

theorem map_eq_self_of {α : Type} (l : List α) (f : α → α) (h : ∀ a ∈ l, f a = a) :
    l.map f = l := by
  induction l with
  | nil => rfl
  | cons a tl ih =>
    simp only [List.map_cons]
    rw [h a (by simp), ih (fun x hx => h x (by simp [hx]))]

theorem filter_eq_self_of {α : Type} (l : List α) (p : α → Bool) (h : ∀ a ∈ l, p a = true) :
    l.filter p = l := by
  induction l with
  | nil => rfl
  | cons a tl ih =>
    rw [List.filter_cons_of_pos (h a (by simp)), ih (fun x hx => h x (by simp [hx]))]

/- ### Digit-string round trip -/

theorem ofDigitsList_natDigitsAux : ∀ fuel n, n ≤ fuel → ofDigitsList (natDigitsAux fuel n) = n := by
  intro fuel
  induction fuel with
  | zero =>
    intro n hn
    interval_cases n
    rfl
  | succ f ih =>
    intro n hn
    by_cases h0 : n = 0
    · subst h0; rfl
    · have hdiv : n / 10 < n := Nat.div_lt_self (Nat.pos_of_ne_zero h0) (by norm_num)
      have hle : n / 10 ≤ f := by omega
      simp only [natDigitsAux, if_neg h0, ofDigitsList, ih _ hle]
      omega

theorem natDigitsAux_lt : ∀ fuel n d, d ∈ natDigitsAux fuel n → d < 10 := by
  intro fuel
  induction fuel with
  | zero => intro n d hd; simp [natDigitsAux] at hd
  | succ f ih =>
    intro n d hd
    by_cases h0 : n = 0
    · rw [h0] at hd; simp [natDigitsAux] at hd
    · simp only [natDigitsAux, if_neg h0, List.mem_cons] at hd
      rcases hd with h | h
      · omega
      · exact ih _ _ h

theorem charToDigit_digitToChar (d : Nat) (h : d < 10) : charToDigit (digitToChar d) = d := by
  interval_cases d <;> rfl

theorem newDateOfString_dateToJSONString (t : Nat) : newDateOfString (dateToJSONString t) = t := by
  show ofDigitsList (((((natDigits t).map digitToChar).reverse).map charToDigit).reverse) = t
  rw [List.map_reverse, List.reverse_reverse, List.map_map]
  rw [map_eq_self_of _ _ (fun d hd => by
    simp only [Function.comp]
    exact charToDigit_digitToChar d (natDigitsAux_lt t t d hd))]
  exact ofDigitsList_natDigitsAux t t (Nat.le_refl t)

/- ### Serialization lemmas -/

theorem jsonToRawTask_taskToJson (t : TodoItemModel) :
    jsonToRawTask (taskToJson t) = some (rawOfTask t) := rfl

theorem jsonToRawTask_rawTaskToJson (r : RawTask) :
    jsonToRawTask (rawTaskToJson r) = some r := rfl

theorem decodeRawTasks_map {α : Type} (l : List α) (f : α → Json) (h : α → RawTask)
    (hc : ∀ a, jsonToRawTask (f a) = some (h a)) :
    decodeRawTasks (l.map f) = some (l.map h) := by
  induction l with
  | nil => rfl
  | cons a tl ih => simp [decodeRawTasks, hc a, ih]

theorem hydrateTask_rawOfTask (t : TodoItemModel) : hydrateTask (rawOfTask t) = t := by
  simp [hydrateTask, rawOfTask, newDateOfString_dateToJSONString]

/- ### Lemmas on repeated adds -/

theorem genIds_length : ∀ (steps : List (String × JsDate × JsDate)) (c : Nat),
    (genIds c steps).length = steps.length := by
  intro steps
  induction steps with
  | nil => intro c; rfl
  | cons st rest ih =>
    intro c
    obtain ⟨t, n1, n2⟩ := st
    simp [genIds, ih]

theorem genIds_lower : ∀ (steps : List (String × JsDate × JsDate)) (c y : Nat),
    y ∈ genIds c steps → ∃ x ∈ steps, stepDms x + c + 1 ≤ y := by
  intro steps
  induction steps with
  | nil => intro c y hy; simp [genIds] at hy
  | cons st rest ih =>
    intro c y hy
    obtain ⟨t, n1, n2⟩ := st
    simp only [genIds, List.mem_cons] at hy
    rcases hy with h | h
    · refine ⟨(t, n1, n2), List.mem_cons_self _ _, ?_⟩
      simp only [stepDms]
      omega
    · obtain ⟨x, hx, hle⟩ := ih (c + 1) y h
      exact ⟨x, List.mem_cons_of_mem _ hx, by omega⟩

theorem genIds_pairwise_lt : ∀ (steps : List (String × JsDate × JsDate)) (c : Nat),
    steps.Pairwise (fun a b => stepDms a ≤ stepDms b) →
    (genIds c steps).Pairwise (· < ·) := by
  intro steps
  induction steps with
  | nil => intro c _; exact List.Pairwise.nil
  | cons st rest ih =>
    intro c hp
    obtain ⟨t, n1, n2⟩ := st
    rw [List.pairwise_cons] at hp
    obtain ⟨hhead, htail⟩ := hp
    simp only [genIds, List.pairwise_cons]
    constructor
    · intro y hy
      obtain ⟨x, hx, hle⟩ := genIds_lower rest (c + 1) y hy
      have hd := hhead x hx
      simp only [stepDms] at hd hle
      omega
    · exact ih (c + 1) htail

theorem addTask_todoList_of_nonblank (s : TodoApp) (txt : String) (n1 n2 : JsDate)
    (htxt : ¬ jsTrim txt = "") :
    (addTask n1 n2 (setDraftText txt s)).todoList
      = s.todoList ++ [{ todoItemId := s.todoList.length + 1 + n1.day + n1.ms,
                         todoItem := txt, createdDate := n1.time,
                         status := s.newTask.status }] := by
  simp [addTask, setDraftText, generateId, saveToLocalStorage, htxt]

theorem runAdds_todoList_map : ∀ (steps : List (String × JsDate × JsDate)) (s : TodoApp),
    (∀ x ∈ steps, jsTrim x.1 ≠ "") →
    ((runAdds s steps).todoList).map (fun t => t.todoItemId)
      = (s.todoList.map (fun t => t.todoItemId)) ++ genIds s.todoList.length steps := by
  intro steps
  induction steps with
  | nil => intro s _; simp [runAdds, genIds]
  | cons step rest ih =>
    intro s h
    obtain ⟨txt, n1, n2⟩ := step
    have htxt : ¬ jsTrim txt = "" := h (txt, n1, n2) (List.mem_cons_self _ _)
    show ((runAdds (addTask n1 n2 (setDraftText txt s)) rest).todoList).map (fun t => t.todoItemId) = _
    rw [ih _ (fun x hx => h x (List.mem_cons_of_mem _ hx))]
    rw [addTask_todoList_of_nonblank s txt n1 n2 htxt]
    simp [genIds, List.map_append]

/- ### deleteTask and reachability helpers -/

theorem deleteTask_todoList (i : Nat) (nr : JsDate) (s : TodoApp) :
    (deleteTask true i nr s).todoList = s.todoList.filter (fun t => t.todoItemId != i) := by
  unfold deleteTask
  simp only [if_true]
  split <;> rfl

theorem length_le_filter_ne_of_nodup (l : List TodoItemModel) (i : Nat)
    (h : (l.map (fun t => t.todoItemId)).Nodup) :
    l.length ≤ (l.filter (fun t => t.todoItemId != i)).length + 1 := by
  induction l with
  | nil => simp
  | cons a tl ih =>
    simp only [List.map_cons, List.nodup_cons] at h
    obtain ⟨hnotin, hnd⟩ := h
    by_cases hai : a.todoItemId = i
    · have hrest : tl.filter (fun t => t.todoItemId != i) = tl := by
        apply filter_eq_self_of
        intro t ht
        have hne : t.todoItemId ≠ i := by
          intro he
          exact hnotin (by
            rw [hai, ← he]
            exact List.mem_map_of_mem _ ht)
        simp [hne]
      have hlen := congrArg List.length hrest
      simp only [List.filter_cons]
      have hcond : ((fun t => t.todoItemId != i) a) = false := by simp [hai]
      simp only [hcond, Bool.false_eq_true, if_false, List.length_cons]
      omega
    · simp only [List.filter_cons]
      have hcond : ((fun t => t.todoItemId != i) a) = true := by simp [hai]
      simp only [hcond, if_true, List.length_cons]
      have := ih hnd
      omega

theorem reachable_no_zero_id {s : TodoApp} (h : Reachable s) :
    ∀ t ∈ s.todoList, t.todoItemId ≠ 0 := by
  induction h with
  | init d0 store => intro t ht; simp [initialState] at ht
  | @stepAdd s n1 n2 _ ih =>
    intro t ht
    by_cases hb : jsTrim s.newTask.todoItem = ""
    · exact ih t (by simpa [addTask, hb] using ht)
    · simp only [addTask, if_neg hb, saveToLocalStorage, generateId] at ht
      rcases List.mem_append.1 ht with h1 | h1
      · exact ih t h1
      · simp only [List.mem_singleton] at h1
        subst h1
        simp
  | @stepEdit s data _ _ ih => intro t ht; exact ih t ht
  | @stepUpdate s nr _ ih =>
    intro t ht
    by_cases hb : jsTrim s.newTask.todoItem = ""
    · exact ih t (by simpa [updateTask, hb] using ht)
    · simp only [updateTask, if_neg hb, saveToLocalStorage] at ht
      obtain ⟨a, ha, hfa⟩ := List.mem_map.1 ht
      by_cases hid : a.todoItemId = s.newTask.todoItemId
      · rw [if_pos hid] at hfa
        rw [← hfa, ← hid]
        exact ih a ha
      · rw [if_neg hid] at hfa
        rw [← hfa]
        exact ih a ha
  | @stepCancel s nr _ ih => intro t ht; exact ih t ht
  | @stepDelete s c i nr _ ih =>
    intro t ht
    cases c with
    | false => exact ih t ht
    | true =>
      rw [deleteTask_todoList] at ht
      exact ih t (List.mem_of_mem_filter ht)
  | @stepToggle s task _ ih =>
    intro t ht
    have ht' : t ∈ s.todoList.map (fun item =>
        if item.todoItemId = task.todoItemId then
          { item with status := if item.status = "Completed" then "Pending" else "Completed" }
        else item) := ht
    obtain ⟨a, ha, hfa⟩ := List.mem_map.1 ht'
    by_cases hid : a.todoItemId = task.todoItemId
    · rw [if_pos hid] at hfa
      rw [← hfa]
      exact ih a ha
    · rw [if_neg hid] at hfa
      rw [← hfa]
      exact ih a ha
  | @stepClear s c _ ih =>
    intro t ht
    cases c with
    | false => exact ih t ht
    | true =>
      have ht' : t ∈ s.todoList.filter (fun item => item.status != "Completed") := ht
      exact ih t (List.mem_of_mem_filter ht')
  | @stepSetText s txt _ ih => intro t ht; exact ih t ht
  | @stepSetStatus s st _ ih => intro t ht; exact ih t ht

/- ### Claim theorems -/

/-- C5: for every state whose draft text trims to the empty string, `addTask`
is a complete silent no-op: the whole component state — task list, draft and
persisted blob — is returned unchanged and no error is raised. -/
theorem addTask_blank_noop (s : TodoApp) (n1 n2 : JsDate)
    (h : jsTrim s.newTask.todoItem = "") : addTask n1 n2 s = s := by
  simp [addTask, h]

/-- Witness for C5 at a concrete state whose draft text is `"   "`. -/
theorem addTask_blank_noop_witness :
    addTask { time := 1, day := 2, ms := 3 } { time := 4, day := 5, ms := 6 } blankDraftState
      = blankDraftState :=
  addTask_blank_noop blankDraftState _ _ (by decide)

/-- C6: `toggleComplete` rewrites the list entrywise — an entry with the given
task's id has its status mapped Completed → Pending and anything else (Pending
or "In Progress") → Completed, all other fields kept, entries with other ids
kept verbatim; when no entry has the id the list is unchanged; one toggle of
an "In Progress" task yields Completed; two toggles of a Pending task restore
the list. -/
theorem toggleComplete_spec (s : TodoApp) (task : TodoItemModel) :
    ((toggleComplete task s).todoList = s.todoList.map (fun item =>
        if item.todoItemId = task.todoItemId then
          { item with status := if item.status = "Completed" then "Pending" else "Completed" }
        else item))
    ∧ ((∀ t ∈ s.todoList, t.todoItemId ≠ task.todoItemId) →
        (toggleComplete task s).todoList = s.todoList)
    ∧ (∀ t ∈ s.todoList, t.todoItemId = task.todoItemId → t.status = "In Progress" →
        { t with status := "Completed" } ∈ (toggleComplete task s).todoList)
    ∧ ((∀ t ∈ s.todoList, t.todoItemId = task.todoItemId → t.status = "Pending") →
        (toggleComplete task (toggleComplete task s)).todoList = s.todoList) := by
  refine ⟨rfl, ?_, ?_, ?_⟩
  · intro h
    show s.todoList.map _ = s.todoList
    exact map_eq_self_of _ _ (fun t ht => by rw [if_neg (h t ht)])
  · intro t ht hid hst
    show _ ∈ s.todoList.map _
    have himg : ({ t with status := "Completed" } : TodoItemModel)
        = (fun item =>
            if item.todoItemId = task.todoItemId then
              { item with status := if item.status = "Completed" then "Pending" else "Completed" }
            else item) t := by
      simp [hid, hst]
    rw [himg]
    exact List.mem_map_of_mem _ ht
  · intro h
    show (s.todoList.map _).map _ = s.todoList
    rw [List.map_map]
    apply map_eq_self_of
    intro t ht
    obtain ⟨i, txt, cd, st⟩ := t
    by_cases hid : i = task.todoItemId
    · have hst := h _ ht hid
      simp only at hst
      subst hst
      simp [Function.comp, hid]
    · simp [Function.comp, hid]

/-- Witness for C6: double toggle of the Pending task restores the list. -/
theorem toggleComplete_spec_witness :
    (toggleComplete wToggleTask (toggleComplete wToggleTask wToggleState)).todoList
      = wToggleState.todoList :=
  (toggleComplete_spec wToggleState wToggleTask).2.2.2 (by decide)

/-- C7: with a non-empty trimmed draft text, `updateTask` rewrites the list
entrywise, replacing each entry whose id equals the draft's id by a structural
copy of the draft and keeping every other entry verbatim; and when the draft
was produced by `editTask` on a task A followed by a text edit, the entry in
A's slot becomes A with only the text changed — same `createdDate`, same
status — while every other task is unchanged.  (Proved for all lists; the
claim's instance is any list containing a task with the draft's id.) -/
theorem updateTask_spec :
    (∀ (s : TodoApp) (nr : JsDate), jsTrim s.newTask.todoItem ≠ "" →
      (updateTask nr s).todoList = s.todoList.map (fun item =>
        if item.todoItemId = s.newTask.todoItemId then s.newTask else item))
    ∧ (∀ (s : TodoApp) (A : TodoItemModel) (newText : String) (nr : JsDate),
        jsTrim newText ≠ "" →
        (updateTask nr (setDraftText newText (editTask A s))).todoList
          = s.todoList.map (fun item =>
              if item.todoItemId = A.todoItemId then { A with todoItem := newText } else item)) := by
  constructor
  · intro s nr h
    simp [updateTask, h, saveToLocalStorage]
  · intro s A newText nr h
    simp [updateTask, editTask, setDraftText, saveToLocalStorage, h]

/-- Witness for C7 at the spec's example: [A(id=1), B(id=2)], edit A's text to
"X", update; the result is [A with text "X" and createdDate 100 unchanged, B
verbatim]. -/
theorem updateTask_spec_witness :
    (updateTask { time := 9, day := 0, ms := 0 }
        (setDraftText "X" (editTask wTaskA wStateAB))).todoList
      = [{ todoItemId := 1, todoItem := "X", createdDate := 100, status := "Pending" },
         { todoItemId := 2, todoItem := "beta", createdDate := 200, status := "Pending" }] := by
  rw [updateTask_spec.2 wStateAB wTaskA "X" { time := 9, day := 0, ms := 0 } (by decide)]
  rfl

/-- C8 (amended): a confirmed `deleteTask i` keeps exactly the entries whose
id differs from `i` — hence removes at most one entry whenever the list's ids
are pairwise distinct, and is the identity on the list when no task has id
`i`.  (The unamended "at most one for every task list" fails on reachable
lists with duplicate ids, see the counterexample.) -/
theorem deleteTask_spec (s : TodoApp) (i : Nat) (nr : JsDate) :
    ((deleteTask true i nr s).todoList = s.todoList.filter (fun t => t.todoItemId != i))
    ∧ ((s.todoList.map (fun t => t.todoItemId)).Nodup →
        s.todoList.length ≤ (deleteTask true i nr s).todoList.length + 1)
    ∧ ((∀ t ∈ s.todoList, t.todoItemId ≠ i) → (deleteTask true i nr s).todoList = s.todoList) := by
  refine ⟨deleteTask_todoList i nr s, ?_, ?_⟩
  · intro hnd
    rw [deleteTask_todoList]
    exact length_le_filter_ne_of_nodup s.todoList i hnd
  · intro h
    rw [deleteTask_todoList]
    exact filter_eq_self_of _ _ (fun t ht => by simp [h t ht])

/-- Witness for C8: deleting id 999 from a list without id 999 (confirmation
granted) leaves the list unchanged. -/
theorem deleteTask_spec_witness :
    (deleteTask true 999 { time := 0, day := 0, ms := 0 } wStateAB).todoList
      = wStateAB.todoList :=
  (deleteTask_spec wStateAB 999 { time := 0, day := 0, ms := 0 }).2.2 (by decide)

/-- C8 counterexample: from the empty store, two adds whose clock readings
collide produce a state the store itself reaches whose two tasks both have
id 2; a confirmed `deleteTask 2` then removes two entries, not at most one. -/
theorem deleteTask_removes_two :
    (runAdds (initialState { time := 0, day := 0, ms := 0 } none) collisionSteps).todoList.length = 2
    ∧ (deleteTask true 2 { time := 9, day := 0, ms := 0 }
        (runAdds (initialState { time := 0, day := 0, ms := 0 } none) collisionSteps)).todoList
      = [] := by
  constructor
  · rfl
  · rfl

/-- C3 (amended): starting from an empty store, N adds with non-empty (and
pairwise distinct) draft texts always yield a list of length N; the N
generated ids (count + 1 + day-of-week + millisecond) are pairwise distinct
whenever the day+ms components of the generate-clocks are nondecreasing along
the calls — but not for every sequence of clock values (see the
counterexample). -/
theorem runAdds_length_and_distinct (steps : List (String × JsDate × JsDate))
    (d0 : JsDate) (store : Option JsonText)
    (htext : ∀ x ∈ steps, jsTrim x.1 ≠ "")
    (hdistinct : (steps.map (fun x => x.1)).Nodup) :
    (runAdds (initialState d0 store) steps).todoList.length = steps.length
    ∧ (steps.Pairwise (fun a b => stepDms a ≤ stepDms b) →
       ((runAdds (initialState d0 store) steps).todoList.map (fun t => t.todoItemId)).Nodup) := by
  have hmap := runAdds_todoList_map steps (initialState d0 store) htext
  simp only [initialState, List.map_nil, List.nil_append, List.length_nil] at hmap
  constructor
  · have h1 := congrArg List.length hmap
    simp only [List.length_map, genIds_length] at h1
    exact h1
  · intro hp
    simp only [initialState]
    rw [hmap]
    exact List.Pairwise.imp (fun hlt => Nat.ne_of_lt hlt) (genIds_pairwise_lt steps 0 hp)

/-- Witness for C3 at two adds with distinct non-empty texts and nondecreasing
day+ms clock components: two tasks, distinct ids. -/
theorem runAdds_length_and_distinct_witness :
    (runAdds (initialState { time := 0, day := 0, ms := 0 } none) monotoneSteps).todoList.length = 2
    ∧ ((runAdds (initialState { time := 0, day := 0, ms := 0 } none) monotoneSteps).todoList.map
        (fun t => t.todoItemId)).Nodup := by
  have h := runAdds_length_and_distinct monotoneSteps { time := 0, day := 0, ms := 0 } none
    (by decide) (by decide)
  exact ⟨h.1, h.2 (by decide)⟩

/-- C3 counterexample: two addTask calls with distinct non-empty draft texts
whose clock readings collide (first call: count 0, day+ms 1; second call:
count 1, day+ms 0) produce a list of length 2 whose ids are [2, 2] — not
pairwise distinct, refuting uniqueness for every sequence of clock values. -/
theorem runAdds_id_collision :
    ((runAdds (initialState { time := 0, day := 0, ms := 0 } none) collisionSteps).todoList.map
        (fun t => t.todoItemId)) = [2, 2]
    ∧ ¬ ((runAdds (initialState { time := 0, day := 0, ms := 0 } none) collisionSteps).todoList.map
        (fun t => t.todoItemId)).Nodup
    ∧ (∀ x ∈ collisionSteps, jsTrim x.1 ≠ "")
    ∧ (collisionSteps.map (fun x => x.1)).Nodup := by
  exact ⟨rfl, by decide, by decide, by decide⟩

/-- C10: every id `generateId` assigns is at least 1; hence in every state a
session reaches no stored task carries the add-mode sentinel id 0; hence
`updateTask` run while the draft is in add mode (draft id 0, non-empty text)
leaves every stored task unchanged. -/
theorem generateId_positive_spec :
    (∀ (now : JsDate) (s : TodoApp), 1 ≤ (generateId now s).newTask.todoItemId)
    ∧ (∀ s : TodoApp, Reachable s → ∀ t ∈ s.todoList, t.todoItemId ≠ 0)
    ∧ (∀ (s : TodoApp) (nr : JsDate), Reachable s → s.newTask.todoItemId = 0 →
        jsTrim s.newTask.todoItem ≠ "" → (updateTask nr s).todoList = s.todoList) := by
  refine ⟨?_, ?_, ?_⟩
  · intro now s
    show 1 ≤ s.todoList.length + 1 + now.day + now.ms
    omega
  · intro s hr
    exact reachable_no_zero_id hr
  · intro s nr hr h0 hne
    simp only [updateTask, if_neg hne, saveToLocalStorage]
    apply map_eq_self_of
    intro t ht
    exact if_neg (fun he => reachable_no_zero_id hr t ht (he.trans h0))

/-- Witness for C10: a reachable add-mode state with non-empty draft text, on
which updateTask leaves the (empty) task list unchanged. -/
theorem generateId_positive_spec_witness :
    (updateTask { time := 1, day := 0, ms := 0 } wC10State).todoList = wC10State.todoList :=
  generateId_positive_spec.2.2 wC10State { time := 1, day := 0, ms := 0 }
    (Reachable.stepSetText "x" (Reachable.init { time := 0, day := 0, ms := 0 } none))
    rfl (by decide)

/-- C4 (amended): initialization with no stored blob leaves the store's empty
task list; with a malformed blob, the `JSON.parse` exception propagates out of
`ngOnInit` (the list stays empty but initialization fails — the unamended
"comes up empty rather than failing" is refuted by the counterexample); with
a parsed blob of persisted-task records, each record's serialized
`createdDate` string is re-hydrated into a timestamp value. -/
theorem ngOnInit_spec :
    (∀ d0 : JsDate, ngOnInit (initialState d0 none) = Except.ok (initialState d0 none)
        ∧ (initialState d0 none).todoList = [])
    ∧ (∀ (s : TodoApp) (str : String), s.localStore = some (JsonText.malformed str) →
        ngOnInit s = Except.error (JsError.parseError str))
    ∧ (∀ (s : TodoApp) (raws : List RawTask),
        s.localStore = some (JsonText.wellFormed (Json.arr (raws.map rawTaskToJson))) →
        ngOnInit s = Except.ok { s with todoList := raws.map hydrateTask }) := by
  refine ⟨?_, ?_, ?_⟩
  · intro d0
    exact ⟨rfl, rfl⟩
  · intro s str h
    obtain ⟨nt, tl, stx, fs, so, ls⟩ := s
    dsimp only at h
    subst h
    rfl
  · intro s raws h
    obtain ⟨nt, tl, stx, fs, so, ls⟩ := s
    dsimp only at h
    subst h
    have hdec : decodeRawTasks (raws.map rawTaskToJson) = some raws := by
      have hd := decodeRawTasks_map raws rawTaskToJson id
        (fun r => jsonToRawTask_rawTaskToJson r)
      simpa using hd
    simp [ngOnInit, jsonParse, hdec]

/-- C4 counterexample: with a malformed persisted blob, initialization throws
the `JSON.parse` SyntaxError (there is no try/catch in `ngOnInit`) instead of
coming up with an empty task list without failing. -/
theorem ngOnInit_malformed_throws :
    ngOnInit (initialState { time := 0, day := 0, ms := 0 } (some (JsonText.malformed "oops")))
      = Except.error (JsError.parseError "oops") := rfl

/-- Witness for C4: loading a well-formed one-record blob re-hydrates its
createdDate string. -/
theorem ngOnInit_spec_witness :
    ngOnInit wC4State = Except.ok { wC4State with todoList := [hydrateTask wRaw] } :=
  ngOnInit_spec.2.2 wC4State [wRaw] rfl

/-- C9: round-trip persistence — for every (non-empty) task list the store
could produce, serializing it (`JSON.stringify`, dates as strings) and loading
the result back as `ngOnInit` does (parse, then re-hydrate each `createdDate`)
yields the same task list, field for field, with each `createdDate` equal as a
timestamp value. -/
theorem ngOnInit_roundtrip (ts : List TodoItemModel) (s : TodoApp)
    (hne : ts ≠ []) (hstore : s.localStore = some (stringifyTasks ts)) :
    ngOnInit s = Except.ok { s with todoList := ts } := by
  obtain ⟨nt, tl, stx, fs, so, ls⟩ := s
  dsimp only at hstore
  subst hstore
  have hdec : decodeRawTasks (ts.map taskToJson) = some (ts.map rawOfTask) :=
    decodeRawTasks_map ts taskToJson rawOfTask (fun t => jsonToRawTask_taskToJson t)
  have hhyd : (ts.map rawOfTask).map hydrateTask = ts := by
    rw [List.map_map]
    exact map_eq_self_of _ _ (fun t ht => by
      simp only [Function.comp]
      exact hydrateTask_rawOfTask t)
  simp [ngOnInit, stringifyTasks, jsonParse, hdec, hhyd]

/-- Witness for C9 on a concrete one-task list. -/
theorem ngOnInit_roundtrip_witness :
    ngOnInit wC9State = Except.ok { wC9State with todoList := wTs } :=
  ngOnInit_roundtrip wTs wC9State (by decide) rfl

/-- C1: at the spec's own example — tasks ("buy milk", Pending),
("buy bread", Completed), ("call bank", Pending) with the filter signal
holding "Pending" and the search signal "buy" — `getFilteredTasks` does not
return [("buy milk", Pending)]: because the signals are read without being
called, the status filter keeps nothing and the call throws a TypeError at
`this.searchText.trim()`. -/
theorem getFilteredTasks_example_throws :
    getFilteredTasks exampleC1
      = Except.error (JsError.typeError "this.searchText.trim is not a function") := rfl

/-- C2: at the spec's sort example — three tasks with createdDate
100 < 200 < 300 and the sort signal holding "newest" — `getFilteredTasks`
returns no ordering at all: it throws a TypeError at `this.searchText.trim()`
before the sort can run (and `this.sortOrder === 'newest'` compares the
signal object, never the string, so "newest" could never select descending). -/
theorem getFilteredTasks_sort_example_throws :
    getFilteredTasks exampleC2
      = Except.error (JsError.typeError "this.searchText.trim is not a function") := rfl
